import Mathlib

/-
  Verification development for the hudhook DX12 overlay hook.

  Shallow embedding of:
  - src/hudhook/src/hooks/dx12.rs   (the hook module: window-procedure shim,
    present / resize-buffers / execute-command-lists detours, renderer
    construction, hook installation), and
  - src/examples/wgpu-experiment/src/bin/dcomp.rs (the example renderer:
    FrameContext fence bookkeeping, incr and wait_fence).

  Modelling conventions:
  - Machine integers (u32, usize, u64) are modelled as Nat; signed quantities
    (LRESULT, HRESULT payloads, RECT coordinates) as Int.
  - COM / device objects are identified by Nat ids; objects created by
    successive calls to a device factory function are given successive ids,
    so distinct creation calls yield distinct ids.
  - Calls with externally visible effects (command-list recording, GPU
    submission, trampoline invocations, SetWindowLongPtrA) are recorded as an
    ordered event trace, in the order the source issues them.
  - The f32 mouse-wheel accumulators are modelled exactly, in raw wheel-delta
    units (the source stores delta / WHEEL_DELTA as f32; only which field is
    touched matters to the claims, not the scaled value).
-/

----------------------------------------------------------------------------
-- Win32 constants used by src/hudhook/src/hooks/dx12.rs
----------------------------------------------------------------------------

def WM_ACTIVATE : Nat := 0x0006
def WM_KEYDOWN : Nat := 0x0100
def WM_KEYUP : Nat := 0x0101
def WM_CHAR : Nat := 0x0102
def WM_SYSKEYDOWN : Nat := 0x0104
def WM_SYSKEYUP : Nat := 0x0105
def WM_LBUTTONDOWN : Nat := 0x0201
def WM_LBUTTONUP : Nat := 0x0202
def WM_LBUTTONDBLCLK : Nat := 0x0203
def WM_RBUTTONDOWN : Nat := 0x0204
def WM_RBUTTONUP : Nat := 0x0205
def WM_RBUTTONDBLCLK : Nat := 0x0206
def WM_MBUTTONDOWN : Nat := 0x0207
def WM_MBUTTONUP : Nat := 0x0208
def WM_MBUTTONDBLCLK : Nat := 0x0209
def WM_MOUSEWHEEL : Nat := 0x020A
def WM_XBUTTONDOWN : Nat := 0x020B
def WM_XBUTTONUP : Nat := 0x020C
def WM_XBUTTONDBLCLK : Nat := 0x020D
def WM_MOUSEHWHEEL : Nat := 0x020E
def WA_INACTIVE : Nat := 0
def WHEEL_DELTA : Nat := 120
def XBUTTON1 : Nat := 1

/-- hiword helper from imgui_wnd_proc: bits 16..31 of a usize as u16. -/
def hiword (i : Nat) : Nat := (i >>> 16) % 65536

/-- loword helper from imgui_wnd_proc: low 16 bits of a usize as u16. -/
def loword (i : Nat) : Nat := i % 65536

/-- Reinterpret a u16 value as an i16 (GET_WHEEL_DELTA_WPARAM does
u16-to-i16 reinterpretation of the wparam high word). -/
def toI16 (h : Nat) : Int := if h < 32768 then (h : Int) else (h : Int) - 65536

----------------------------------------------------------------------------
-- imgui input state touched by the hook (fields of imgui::Io the source
-- writes; key_map and nav flags are written once at init and never read by
-- the code under verification, so they are not tracked)
----------------------------------------------------------------------------

structure ImguiIo where
  keys_down : Nat → Bool
  mouse_down : Nat → Bool
  mouse_wheel : Int
  mouse_wheel_h : Int
  input_chars : List Char
  display_size : Int × Int
  mouse_pos : Int × Int

/-- Fresh input state as produced by imgui Context::create. -/
def ImguiIo.init : ImguiIo :=
  { keys_down := fun _ => false
    mouse_down := fun _ => false
    mouse_wheel := 0
    mouse_wheel_h := 0
    input_chars := []
    display_size := (0, 0)
    mouse_pos := (0, 0) }

----------------------------------------------------------------------------
-- Data structures of the hook (src/hudhook/src/hooks/dx12.rs)
----------------------------------------------------------------------------

/-- FrameContext of the hook module (dx12.rs lines 107-112).  Faithful to the
source: it holds ONLY a back buffer, an RTV descriptor handle and a command
allocator.  It has no fence, no fence value and no wait handle. -/
structure FrameContext where
  back_buffer : Nat
  desc_handle : Nat
  command_allocator : Nat
deriving DecidableEq

/-- ImguiRenderer (dx12.rs lines 304-314).  ctx is represented by its io
state; engine is an external collaborator and carries no state the claims
touch. -/
structure ImguiRenderer where
  io : ImguiIo
  focused : Bool
  wnd_proc : Nat
  frame_contexts : List FrameContext
  renderer_heap : Nat
  rtv_heap : Nat
  command_queue : Option Nat
  command_list : Nat

/-- Swap-chain description fields read by the hook (GetDesc). -/
structure SwapDesc where
  bufferCount : Nat
  outputWindow : Nat
deriving DecidableEq

/-- Device quantities read by ImguiRenderer::new. -/
structure DeviceParams where
  rtvHandleStart : Nat
  rtvIncSize : Nat
deriving DecidableEq

/-- Environment read by ImguiRenderer::render: GetWindowRect result
(left, top, right, bottom), whether GetForegroundWindow matches the output
window or a child, the cursor position after ScreenToClient, and
GetCurrentBackBufferIndex. -/
structure RenderWorld where
  windowRect : Option (Int × Int × Int × Int)
  foregroundMatches : Bool
  cursor : Option (Int × Int)
  backBufferIndex : Nat

----------------------------------------------------------------------------
-- Event trace
----------------------------------------------------------------------------

/-- Externally visible calls issued by the embedded code, in program order. -/
inductive Ev where
  | newFrame
  | renderLoopRender (focused : Bool)
  | allocatorReset (alloc : Nat)
  | commandListReset (list alloc : Nat)
  | resourceBarrier
  | omSetRenderTargets (handle : Nat)
  | setDescriptorHeaps (heap : Nat)
  | renderDrawData (idx : Nat)
  | commandListClose
  | executeOnQueue (queue : Nat)
  | signalFence (fence val : Nat)
  | fenceWait (fence val : Nat)
  | setWindowProc (hwnd proc : Nat)
  | trampolinePresent (sync flags : Nat)
  | trampolineResize (bufferCount width height format flags : Nat)
  | trampolineExec (queue num : Nat)
  | presentCall
  | panicEv
deriving DecidableEq

/-- Recognizer for fence-wait events. -/
def Ev.isFenceWait : Ev → Bool
  | .fenceWait _ _ => true
  | _ => false

----------------------------------------------------------------------------
-- The window-procedure shim (imgui_wnd_proc, dx12.rs lines 192-298)
----------------------------------------------------------------------------

/-- View of IMGUI_RENDERER.get().map(Mutex::try_lock) as seen by the shim:
the cell may be unset, set but locked by another thread (the contents are
carried for specification purposes, the shim cannot touch them), or
successfully locked. -/
inductive LockView where
  | noRenderer
  | lockHeld (r : ImguiRenderer)
  | acquired (r : ImguiRenderer)

/-- Where the shim sends the message, with the exact arguments passed. -/
inductive WndCall where
  | callOriginal (proc hwnd umsg wparam : Nat) (lparam : Int)
  | defWindowProc (hwnd umsg wparam : Nat) (lparam : Int)
  | ret (code : Int)
deriving DecidableEq

/-- One arm of the match on umsg inside imgui_wnd_proc (dx12.rs lines
217-280): returns the updated io, the updated focus flag, and an early
LRESULT when the arm returns without forwarding (only WM_ACTIVATE does).
The source match arms test disjoint constants, so the if-chain order is the
source order. -/
def wndProcArm (io : ImguiIo) (focused : Bool) (umsg wparam : Nat) (_lparam : Int) :
    ImguiIo × Bool × Option Int :=
  if umsg = WM_KEYDOWN ∨ umsg = WM_SYSKEYDOWN then
    (if wparam < 256 then
        { io with keys_down := fun k => if k = wparam then true else io.keys_down k }
      else io, focused, none)
  else if umsg = WM_KEYUP ∨ umsg = WM_SYSKEYUP then
    (if wparam < 256 then
        { io with keys_down := fun k => if k = wparam then false else io.keys_down k }
      else io, focused, none)
  else if umsg = WM_LBUTTONDOWN ∨ umsg = WM_LBUTTONDBLCLK then
    ({ io with mouse_down := fun b => if b = 0 then true else io.mouse_down b }, focused, none)
  else if umsg = WM_RBUTTONDOWN ∨ umsg = WM_RBUTTONDBLCLK then
    ({ io with mouse_down := fun b => if b = 1 then true else io.mouse_down b }, focused, none)
  else if umsg = WM_MBUTTONDOWN ∨ umsg = WM_MBUTTONDBLCLK then
    ({ io with mouse_down := fun b => if b = 2 then true else io.mouse_down b }, focused, none)
  else if umsg = WM_XBUTTONDOWN ∨ umsg = WM_XBUTTONDBLCLK then
    (let btn := if hiword wparam = XBUTTON1 then 3 else 4
     { io with mouse_down := fun b => if b = btn then true else io.mouse_down b }, focused, none)
  else if umsg = WM_LBUTTONUP then
    ({ io with mouse_down := fun b => if b = 0 then false else io.mouse_down b }, focused, none)
  else if umsg = WM_RBUTTONUP then
    ({ io with mouse_down := fun b => if b = 1 then false else io.mouse_down b }, focused, none)
  else if umsg = WM_MBUTTONUP then
    ({ io with mouse_down := fun b => if b = 2 then false else io.mouse_down b }, focused, none)
  else if umsg = WM_XBUTTONUP then
    (let btn := if hiword wparam = XBUTTON1 then 3 else 4
     { io with mouse_down := fun b => if b = btn then false else io.mouse_down b }, focused, none)
  else if umsg = WM_MOUSEWHEEL then
    ({ io with mouse_wheel := io.mouse_wheel + toI16 (hiword wparam) }, focused, none)
  else if umsg = WM_MOUSEHWHEEL then
    ({ io with mouse_wheel_h := io.mouse_wheel_h + toI16 (hiword wparam) }, focused, none)
  else if umsg = WM_CHAR then
    ({ io with input_chars := io.input_chars ++ [Char.ofNat (wparam % 256)] }, focused, none)
  else if umsg = WM_ACTIVATE then
    (io, if loword wparam = WA_INACTIVE then false else true, some 1)
  else
    (io, focused, none)

/-- imgui_wnd_proc (dx12.rs lines 192-298).  On lock success the io and
focus updates are applied, then (except for the WM_ACTIVATE early return)
the message is forwarded to the SAVED ORIGINAL procedure via CallWindowProcW
with the original arguments.  When the renderer is absent or the lock is
held elsewhere, the message goes to DefWindowProcW instead. -/
def imgui_wnd_proc (v : LockView) (hwnd umsg wparam : Nat) (lparam : Int) :
    LockView × WndCall :=
  match v with
  | .acquired r =>
      let out := wndProcArm r.io r.focused umsg wparam lparam
      let r2 := { r with io := out.1, focused := out.2.1 }
      match out.2.2 with
      | some code => (.acquired r2, .ret code)
      | none => (.acquired r2, .callOriginal r.wnd_proc hwnd umsg wparam lparam)
  | .lockHeld r => (.lockHeld r, .defWindowProc hwnd umsg wparam lparam)
  | .noRenderer => (.noRenderer, .defWindowProc hwnd umsg wparam lparam)

----------------------------------------------------------------------------
-- ImguiRenderer construction, render and cleanup
----------------------------------------------------------------------------

/-- Object id of the renderer (CBV_SRV_UAV) descriptor heap created first in
ImguiRenderer::new.  Object ids are per creation site; the claims only ever
compare ids of objects of the same kind. -/
def rendererHeapId : Nat := 0

/-- Object id of the root command list created in ImguiRenderer::new. -/
def rootCommandListId : Nat := 1

/-- Object id of the RTV descriptor heap created in ImguiRenderer::new. -/
def rtvHeapId : Nat := 2

/-- Address tag of the imgui_wnd_proc function installed by
SetWindowLongPtrA in ImguiRenderer::new. -/
def imgui_wnd_proc_addr : Nat := 0xFACE

/-- ImguiRenderer::new (dx12.rs lines 317-439).  Builds one FrameContext per
swap-chain buffer: context i gets the RTV handle at heap start plus i times
the RTV increment size, back buffer i, and its own freshly created command
allocator (id i).  The command queue starts out uncaptured (None) and the
previous window procedure returned by SetWindowLongPtrA is saved. -/
def ImguiRenderer.new (desc : SwapDesc) (dev : DeviceParams) (prevWndProc : Nat) :
    ImguiRenderer :=
  { io := ImguiIo.init
    focused := true
    wnd_proc := prevWndProc
    frame_contexts := (List.range desc.bufferCount).map fun i =>
      { back_buffer := i
        desc_handle := dev.rtvHandleStart + i * dev.rtvIncSize
        command_allocator := i }
    renderer_heap := rendererHeapId
    rtv_heap := rtvHeapId
    command_queue := none
    command_list := rootCommandListId }

/-- The io bookkeeping at the top of ImguiRenderer::render (dx12.rs lines
443-471): on GetWindowRect success the display size is set from the rect,
and when the foreground window matches, a successful cursor query updates
the mouse position.  On GetWindowRect failure the error is only logged. -/
def renderIoUpdate (io : ImguiIo) (w : RenderWorld) : ImguiIo :=
  match w.windowRect with
  | some (l, t, rt, b) =>
      let io2 := { io with display_size := (rt - l, b - t) }
      if w.foregroundMatches then
        match w.cursor with
        | some p => { io2 with mouse_pos := p }
        | none => io2
      else io2
  | none => io

/-- ImguiRenderer::render (dx12.rs lines 441-543).  After the io update, a
missing command queue aborts the frame with no GPU work (return None).
Otherwise the current FrameContext is taken from the back-buffer index
(a Rust index panic if out of range) and the recorded calls follow the
source order.  NOTE, faithful to the source: the command allocator is reset
with no fence wait of any kind; the hook FrameContext owns no fence. -/
def ImguiRenderer.render (r : ImguiRenderer) (w : RenderWorld) :
    ImguiRenderer × List Ev :=
  match r.command_queue with
  | none => ({ r with io := renderIoUpdate r.io w }, [])
  | some cq =>
    match r.frame_contexts.get? w.backBufferIndex with
    | none => ({ r with io := renderIoUpdate r.io w }, [Ev.panicEv])
    | some fc =>
        ({ r with io := renderIoUpdate r.io w },
         [Ev.newFrame,
          Ev.renderLoopRender r.focused,
          Ev.allocatorReset fc.command_allocator,
          Ev.commandListReset r.command_list fc.command_allocator,
          Ev.resourceBarrier,
          Ev.omSetRenderTargets fc.desc_handle,
          Ev.setDescriptorHeaps r.renderer_heap,
          Ev.renderDrawData w.backBufferIndex,
          Ev.resourceBarrier,
          Ev.commandListClose,
          Ev.executeOnQueue cq])

/-- The window-procedure slot of the output window (the world state mutated
by SetWindowLongPtrA). -/
structure WindowsState where
  wnd_proc : Nat
deriving DecidableEq

/-- ImguiRenderer::cleanup (dx12.rs lines 545-552): restore the saved
original window procedure on the swap chain output window. -/
def ImguiRenderer.cleanup (r : ImguiRenderer) (desc : SwapDesc) :
    WindowsState × List Ev :=
  (⟨r.wnd_proc⟩, [Ev.setWindowProc desc.outputWindow r.wnd_proc])

----------------------------------------------------------------------------
-- Global singletons and the three detours
----------------------------------------------------------------------------

/-- The two global OnceCells the detours touch: IMGUI_RENDERER and
COMMAND_QUEUE_GUARD (dx12.rs lines 104-105).  The renderer mutex is
abstracted away: each detour body runs with the lock held. -/
structure HookGlobals where
  imgui_renderer : Option ImguiRenderer
  command_queue_guard : Bool

/-- imgui_execute_command_lists_impl (dx12.rs lines 114-137).
COMMAND_QUEUE_GUARD.get_or_try_init: when the guard is already set, the
closure does not run; when unset, the closure stores the observed queue in
the renderer if one exists (setting the guard), and fails leaving the guard
unset otherwise.  The trampoline is invoked unconditionally with the
original arguments. -/
def imgui_execute_command_lists_impl (g : HookGlobals) (cmd_queue num_command_lists : Nat) :
    HookGlobals × List Ev :=
  let g1 :=
    if g.command_queue_guard then g
    else
      match g.imgui_renderer with
      | some r =>
          { imgui_renderer := some { r with command_queue := some cmd_queue }
            command_queue_guard := true }
      | none => g
  (g1, [Ev.trampolineExec cmd_queue num_command_lists])

/-- imgui_resize_buffers_impl (dx12.rs lines 139-159).  IMGUI_RENDERER.take()
removes the renderer; when one was present its cleanup restores the original
window procedure and the renderer (with its frame-context ring) is dropped.
Then COMMAND_QUEUE_GUARD.take() clears the guard, and only then is the
resize trampoline invoked with the original arguments. -/
def imgui_resize_buffers_impl (g : HookGlobals) (win : WindowsState) (desc : SwapDesc)
    (bufferCount width height format flags : Nat) :
    HookGlobals × WindowsState × List Ev :=
  let step1 :=
    match g.imgui_renderer with
    | some r =>
        let c := r.cleanup desc
        ({ g with imgui_renderer := none }, c.1, c.2)
    | none => (g, win, [])
  let g2 := { step1.1 with command_queue_guard := false }
  (g2, step1.2.1, step1.2.2 ++ [Ev.trampolineResize bufferCount width height format flags])

/-- imgui_dxgi_swap_chain_present_impl (dx12.rs lines 161-190).
IMGUI_RENDERER.get_or_init builds the renderer on first call (installing
imgui_wnd_proc on the output window via SetWindowLongPtrA and saving the
previous procedure); then render runs under the lock; then the present
trampoline is invoked with the original sync interval and flags and its
status is returned unchanged.  present_status stands for whatever the
trampoline returns. -/
def imgui_dxgi_swap_chain_present_impl (g : HookGlobals) (win : WindowsState)
    (desc : SwapDesc) (dev : DeviceParams) (w : RenderWorld)
    (sync_interval flags : Nat) (present_status : Int) :
    HookGlobals × WindowsState × List Ev × Int :=
  let init :=
    match g.imgui_renderer with
    | some r => (r, win)
    | none => (ImguiRenderer.new desc dev win.wnd_proc, (⟨imgui_wnd_proc_addr⟩ : WindowsState))
  let rendered := init.1.render w
  ({ imgui_renderer := some rendered.1, command_queue_guard := g.command_queue_guard },
   init.2,
   rendered.2 ++ [Ev.trampolinePresent sync_interval flags],
   present_status)

/-- Fold a sequence of execute-command-lists detour invocations over the
globals (each list element is the observed queue and list count). -/
def foldECL (g : HookGlobals) (calls : List (Nat × Nat)) : HookGlobals :=
  calls.foldl (fun s c => (imgui_execute_command_lists_impl s c.1 c.2).1) g

----------------------------------------------------------------------------
-- Hook installation (hook_imgui, dx12.rs lines 692-757)
----------------------------------------------------------------------------

/-- Status returned by mh::MH_CreateHook. -/
inductive MhStatus where
  | ok
  | err (code : Nat)
deriving DecidableEq

/-- Outcome of one MH_CreateHook call: its status and the trampoline pointer
it wrote through the out-parameter (0, i.e. null, when creation failed and
nothing was written over the null_mut initialization). -/
structure CreateHookOut where
  status : MhStatus
  trampoline : Nat
deriving DecidableEq

/-- The three MH_CreateHook outcomes for present, execute-command-lists and
resize-buffers. -/
structure MhWorld where
  present_hook : CreateHookOut
  ecl_hook : CreateHookOut
  resize_hook : CreateHookOut
deriving DecidableEq

/-- Address tag of imgui_dxgi_swap_chain_present_impl. -/
def present_detour_addr : Nat := 0x1001

/-- Address tag of imgui_execute_command_lists_impl. -/
def ecl_detour_addr : Nat := 0x1002

/-- Address tag of imgui_resize_buffers_impl. -/
def resize_detour_addr : Nat := 0x1003

/-- Global state populated by hook_imgui plus its return value. -/
structure InstallOut where
  trampoline_table : Option (Nat × Nat × Nat)
  render_loop_set : Bool
  hooks : List (Nat × Nat)
deriving DecidableEq

/-- hook_imgui (dx12.rs lines 692-757).  Faithful to the source: each
MH_CreateHook status is bound to a local that is only logged via trace and
never examined, so control flow does not depend on the statuses.  The render
loop global and the TRAMPOLINE table are populated unconditionally (the
table taking whatever pointers the create calls left, null included), and
all three Hook records are returned. -/
def hook_imgui (w : MhWorld) (present_addr ecl_addr resize_addr : Nat) : InstallOut :=
  { trampoline_table :=
      some (w.present_hook.trampoline, w.ecl_hook.trampoline, w.resize_hook.trampoline)
    render_loop_set := true
    hooks :=
      [(present_addr, present_detour_addr),
       (ecl_addr, ecl_detour_addr),
       (resize_addr, resize_detour_addr)] }

----------------------------------------------------------------------------
-- The dcomp example (src/examples/wgpu-experiment/src/bin/dcomp.rs)
----------------------------------------------------------------------------

/-- FrameContext of the dcomp example (dcomp.rs lines 71-79): unlike the
hook FrameContext it owns a fence, the last fence value it was handed, and
an OS event handle. -/
structure Dcomp.FrameContext where
  back_buffer : Nat
  desc_handle : Nat
  command_allocator : Nat
  fence : Nat
  fence_val : Nat
  fence_event : Nat
deriving DecidableEq

/-- FrameContext::incr (dcomp.rs lines 82-85): fence_val is assigned
FENCE_MAX.fetch_add(1, SeqCst), which returns the PREVIOUS value of the
single process-wide atomic counter and bumps it.  Takes and returns the
counter explicitly. -/
def Dcomp.FrameContext.incr (fc : Dcomp.FrameContext) (fence_max : Nat) :
    Dcomp.FrameContext × Nat :=
  ({ fc with fence_val := fence_max }, fence_max + 1)

/-- FrameContext::wait_fence (dcomp.rs lines 87-94): when GetCompletedValue
is below fence_val, SetEventOnCompletion plus an INFINITE
WaitForSingleObjectEx block until the fence reaches fence_val.  The argument
is the fence completed value on entry; the result is the completed value
once the function returns (at least fence_val), plus the wait event. -/
def Dcomp.FrameContext.wait_fence (fc : Dcomp.FrameContext) (completed : Nat) :
    Nat × List Ev :=
  if completed < fc.fence_val then (fc.fence_val, [Ev.fenceWait fc.fence fc.fence_val])
  else (completed, [])

/-- Base id for the per-context command allocators created in Dcomp::new. -/
def Dcomp.allocObjBase : Nat := 100

/-- Base id for the fences created in Dcomp::new (one CreateFence call per
context, each returning a fresh object). -/
def Dcomp.fenceObjBase : Nat := 200

/-- Base id for the fence events created in Dcomp::new. -/
def Dcomp.eventObjBase : Nat := 300

/-- The frame-context ring construction in Dcomp::new (dcomp.rs lines
203-241): context i gets the RTV handle at heap start plus i times the RTV
increment, back buffer i, a fresh command allocator, a fresh fence created
at value 0, fence_val 0 and a fresh event handle. -/
def Dcomp.buildFrameContexts (bufferCount rtvHandleStart rtvIncSize : Nat) :
    List Dcomp.FrameContext :=
  (List.range bufferCount).map fun i =>
    { back_buffer := i
      desc_handle := rtvHandleStart + i * rtvIncSize
      command_allocator := Dcomp.allocObjBase + i
      fence := Dcomp.fenceObjBase + i
      fence_val := 0
      fence_event := Dcomp.eventObjBase + i }

/-- The synchronization skeleton of Dcomp::render (dcomp.rs lines 286-392),
with the io bookkeeping and draw-data preparation elided and the
synchronization-relevant calls kept in source order: wait_fence, incr,
allocator reset, command-list recording, submission, Signal of the new
fence value, Present.  completedOf gives each fence completed value on
entry; the third result is the fence completed value in force when the
allocator reset executes (a ghost observation). -/
def Dcomp.render (ring : List Dcomp.FrameContext) (fence_max idx : Nat)
    (completedOf : Nat → Nat) (cmd_queue : Nat) :
    List Dcomp.FrameContext × Nat × Nat × List Ev :=
  match ring.get? idx with
  | none => (ring, fence_max, 0, [Ev.panicEv])
  | some fc =>
    let waited := fc.wait_fence (completedOf fc.fence)
    let stepped := fc.incr fence_max
    (ring.set idx stepped.1, stepped.2, waited.1,
     waited.2 ++
       [Ev.allocatorReset stepped.1.command_allocator,
        Ev.commandListReset 0 stepped.1.command_allocator,
        Ev.resourceBarrier,
        Ev.omSetRenderTargets stepped.1.desc_handle,
        Ev.setDescriptorHeaps 0,
        Ev.renderDrawData idx,
        Ev.resourceBarrier,
        Ev.commandListClose,
        Ev.executeOnQueue cmd_queue,
        Ev.signalFence stepped.1.fence stepped.1.fence_val,
        Ev.presentCall])

/-- A sequence of FrameContext::incr calls against the ring, one per listed
back-buffer index, threading the process-wide counter; returns the final
ring and counter plus the fence values handed out in order.  An
out-of-range index stops the run (the Rust harness would panic there). -/
def Dcomp.runIncr : List Dcomp.FrameContext → Nat → List Nat →
    List Dcomp.FrameContext × Nat × List Nat
  | ring, fence_max, [] => (ring, fence_max, [])
  | ring, fence_max, idx :: rest =>
    match ring.get? idx with
    | none => (ring, fence_max, [])
    | some fc =>
      let stepped := fc.incr fence_max
      let tail := Dcomp.runIncr (ring.set idx stepped.1) stepped.2 rest
      (tail.1, tail.2.1, stepped.1.fence_val :: tail.2.2)

----------------------------------------------------------------------------
-- Concrete sample states used by closed theorems
----------------------------------------------------------------------------

/-- A 2-buffer swap chain on output window 42. -/
def sampleDesc : SwapDesc := ⟨2, 42⟩

/-- RTV heap starting at handle 1000 with increment 32. -/
def sampleDev : DeviceParams := ⟨1000, 32⟩

/-- A freshly built hook renderer whose saved original window procedure is
address 7. -/
def sampleRenderer : ImguiRenderer := ImguiRenderer.new sampleDesc sampleDev 7

/-- The sample renderer after the execute-command-lists detour captured
queue 5. -/
def capturedRenderer : ImguiRenderer := { sampleRenderer with command_queue := some 5 }

/-- A render environment: window rect (0,0)-(800,600), focused, cursor at
(10,20), back-buffer index 0. -/
def sampleWorld : RenderWorld := ⟨some (0, 0, 800, 600), true, some (10, 20), 0⟩

/-- An MH_CreateHook outcome set where creating the execute-command-lists
hook failed (error 7, trampoline slot left null). -/
def failedEclWorld : MhWorld := ⟨⟨.ok, 111⟩, ⟨.err 7, 0⟩, ⟨.ok, 333⟩⟩

----------------------------------------------------------------------------
-- Helper lemmas
----------------------------------------------------------------------------

/-- Every arm of the umsg match except WM_ACTIVATE falls through to the
forwarding call (no early return value). -/
theorem wndProcArm_early_none (io : ImguiIo) (f : Bool) (umsg wparam : Nat) (l : Int)
    (h : umsg ≠ WM_ACTIVATE) : (wndProcArm io f umsg wparam l).2.2 = none := by
  unfold wndProcArm
  by_cases h1 : umsg = WM_KEYDOWN ∨ umsg = WM_SYSKEYDOWN
  · rw [if_pos h1]
  rw [if_neg h1]
  by_cases h2 : umsg = WM_KEYUP ∨ umsg = WM_SYSKEYUP
  · rw [if_pos h2]
  rw [if_neg h2]
  by_cases h3 : umsg = WM_LBUTTONDOWN ∨ umsg = WM_LBUTTONDBLCLK
  · rw [if_pos h3]
  rw [if_neg h3]
  by_cases h4 : umsg = WM_RBUTTONDOWN ∨ umsg = WM_RBUTTONDBLCLK
  · rw [if_pos h4]
  rw [if_neg h4]
  by_cases h5 : umsg = WM_MBUTTONDOWN ∨ umsg = WM_MBUTTONDBLCLK
  · rw [if_pos h5]
  rw [if_neg h5]
  by_cases h6 : umsg = WM_XBUTTONDOWN ∨ umsg = WM_XBUTTONDBLCLK
  · rw [if_pos h6]
  rw [if_neg h6]
  by_cases h7 : umsg = WM_LBUTTONUP
  · rw [if_pos h7]
  rw [if_neg h7]
  by_cases h8 : umsg = WM_RBUTTONUP
  · rw [if_pos h8]
  rw [if_neg h8]
  by_cases h9 : umsg = WM_MBUTTONUP
  · rw [if_pos h9]
  rw [if_neg h9]
  by_cases h10 : umsg = WM_XBUTTONUP
  · rw [if_pos h10]
  rw [if_neg h10]
  by_cases h11 : umsg = WM_MOUSEWHEEL
  · rw [if_pos h11]
  rw [if_neg h11]
  by_cases h12 : umsg = WM_MOUSEHWHEEL
  · rw [if_pos h12]
  rw [if_neg h12]
  by_cases h13 : umsg = WM_CHAR
  · rw [if_pos h13]
  rw [if_neg h13]
  rw [if_neg h]

/-- Shape of the guarded key-table write: no write at all for key codes of
256 or more, and any key whose entry changed is the (in-bounds) wparam. -/
theorem keys_update_guard (io : ImguiIo) (w k : Nat) (v : Bool) :
    (256 ≤ w →
      (if w < 256 then
          { io with keys_down := fun j => if j = w then v else io.keys_down j }
        else io) = io) ∧
    ((if w < 256 then
          { io with keys_down := fun j => if j = w then v else io.keys_down j }
        else io).keys_down k ≠ io.keys_down k →
      k = w ∧ w < 256) := by
  by_cases hw : w < 256
  · refine ⟨fun hge => absurd hw (by omega), fun hne => ?_⟩
    by_cases hk : k = w
    · exact ⟨hk, hw⟩
    · rw [if_pos hw] at hne
      simp [hk] at hne
  · refine ⟨fun _ => by rw [if_neg hw], fun hne => ?_⟩
    rw [if_neg hw] at hne
    exact absurd rfl hne

----------------------------------------------------------------------------
-- Claim C2
----------------------------------------------------------------------------

/-- Claim C2 (counterexample): the claim says that with the renderer lock
held elsewhere the shim forwards the message to the saved original window
procedure; on a concrete key-down message the shim in fact sends the message
to DefWindowProcW, which is not a call to the saved original procedure. -/
theorem C2_not_forwarded_to_original_counterexample :
    imgui_wnd_proc (LockView.lockHeld sampleRenderer) 42 WM_KEYDOWN 65 0 =
      (LockView.lockHeld sampleRenderer, WndCall.defWindowProc 42 WM_KEYDOWN 65 0) ∧
    WndCall.defWindowProc 42 WM_KEYDOWN 65 0 ≠
      WndCall.callOriginal sampleRenderer.wnd_proc 42 WM_KEYDOWN 65 0 :=
  ⟨rfl, by decide⟩

/-- Claim C2 (amended): for every window message received while the renderer
lock is held by another thread, the shim passes the message unmodified — same
hwnd, message id, wparam and lparam — to DefWindowProcW (the system default
window procedure), not to the saved original procedure, and mutates no
renderer or UI input state. -/
theorem C2_lock_held_forwards_to_default_proc (r : ImguiRenderer)
    (hwnd umsg wparam : Nat) (lparam : Int) :
    imgui_wnd_proc (LockView.lockHeld r) hwnd umsg wparam lparam =
      (LockView.lockHeld r, WndCall.defWindowProc hwnd umsg wparam lparam) :=
  rfl

----------------------------------------------------------------------------
-- Claim C9
----------------------------------------------------------------------------

/-- Claim C9 (counterexample): the claim says that on lock success every
message — focus gain and loss included — is translated and then forwarded to
the saved original window procedure; a concrete WM_ACTIVATE (focus loss)
message flips the focus flag and returns LRESULT 1 WITHOUT forwarding
anywhere. -/
theorem C9_activate_not_forwarded_counterexample :
    imgui_wnd_proc (LockView.acquired sampleRenderer) 42 WM_ACTIVATE 0 0 =
      (LockView.acquired { sampleRenderer with focused := false }, WndCall.ret 1) ∧
    WndCall.ret 1 ≠
      WndCall.callOriginal sampleRenderer.wnd_proc 42 WM_ACTIVATE 0 0 :=
  ⟨rfl, by decide⟩

/-- Claim C9 (amended): for every message received while the renderer lock is
successfully acquired EXCEPT WM_ACTIVATE, the shim applies the message's io
translation and then forwards the unmodified message to the saved original
window procedure (WM_ACTIVATE instead flips the focus flag and returns 1
without forwarding). -/
theorem C9_acquired_translates_and_forwards_except_activate (r : ImguiRenderer)
    (hwnd umsg wparam : Nat) (lparam : Int) (h : umsg ≠ WM_ACTIVATE) :
    (imgui_wnd_proc (LockView.acquired r) hwnd umsg wparam lparam).2 =
      WndCall.callOriginal r.wnd_proc hwnd umsg wparam lparam ∧
    (imgui_wnd_proc (LockView.acquired r) hwnd umsg wparam lparam).1 =
      LockView.acquired
        { r with io := (wndProcArm r.io r.focused umsg wparam lparam).1
                 focused := (wndProcArm r.io r.focused umsg wparam lparam).2.1 } := by
  have he := wndProcArm_early_none r.io r.focused umsg wparam lparam h
  constructor <;> simp only [imgui_wnd_proc, he]

/-- Witness for claim C9: concrete instantiation at a key-down message. -/
theorem C9_acquired_translates_and_forwards_except_activate_witness :
    ((imgui_wnd_proc (LockView.acquired sampleRenderer) 42 WM_KEYDOWN 65 0).2 =
      WndCall.callOriginal sampleRenderer.wnd_proc 42 WM_KEYDOWN 65 0 ∧
    (imgui_wnd_proc (LockView.acquired sampleRenderer) 42 WM_KEYDOWN 65 0).1 =
      LockView.acquired
        { sampleRenderer with
            io := (wndProcArm sampleRenderer.io sampleRenderer.focused WM_KEYDOWN 65 0).1
            focused :=
              (wndProcArm sampleRenderer.io sampleRenderer.focused WM_KEYDOWN 65 0).2.1 }) :=
  C9_acquired_translates_and_forwards_except_activate sampleRenderer 42 WM_KEYDOWN 65 0
    (by decide)

----------------------------------------------------------------------------
-- Claim C10
----------------------------------------------------------------------------

/-- Claim C10: for key-down, key-up, system-key-down and system-key-up
messages, the shim writes the key-state table only when the virtual-key code
is strictly below 256 — a code of 256 or more leaves the io state completely
unchanged — and any key entry that changed is exactly the (in-bounds) code
carried by the message, so every table write is in bounds. -/
theorem C10_key_write_bounds (io : ImguiIo) (f : Bool) (umsg wparam k : Nat) (lparam : Int)
    (h : umsg = WM_KEYDOWN ∨ umsg = WM_SYSKEYDOWN ∨ umsg = WM_KEYUP ∨ umsg = WM_SYSKEYUP) :
    (256 ≤ wparam → (wndProcArm io f umsg wparam lparam).1 = io) ∧
    ((wndProcArm io f umsg wparam lparam).1.keys_down k ≠ io.keys_down k →
      k = wparam ∧ wparam < 256) := by
  rcases h with h | h | h | h <;> subst h
  · exact keys_update_guard io wparam k true
  · exact keys_update_guard io wparam k true
  · exact keys_update_guard io wparam k false
  · exact keys_update_guard io wparam k false

/-- Witness for claim C10: a key-down message with out-of-range key code 300
leaves the io state untouched. -/
theorem C10_key_write_bounds_witness :
    (WM_KEYDOWN = WM_KEYDOWN ∨ WM_KEYDOWN = WM_SYSKEYDOWN ∨ WM_KEYDOWN = WM_KEYUP ∨
      WM_KEYDOWN = WM_SYSKEYUP) ∧
    ((256 ≤ 300 → (wndProcArm ImguiIo.init true WM_KEYDOWN 300 0).1 = ImguiIo.init) ∧
      ((wndProcArm ImguiIo.init true WM_KEYDOWN 300 0).1.keys_down 5 ≠
          ImguiIo.init.keys_down 5 →
        5 = 300 ∧ 300 < 256)) :=
  ⟨Or.inl rfl, C10_key_write_bounds ImguiIo.init true WM_KEYDOWN 300 5 0 (Or.inl rfl)⟩

----------------------------------------------------------------------------
-- Claim C4
----------------------------------------------------------------------------

/-- Claim C4: when the resize-buffers detour runs in the Active state
(renderer present), the overlay state is fully torn down — the renderer is
removed, the queue guard cleared, and the saved original window procedure
restored on the output window — strictly before the resize trampoline is
invoked (the SetWindowLongPtrA restore precedes the trampoline event in the
trace, and the renderer slot is already None); in the Uninitialized state
the detour emits nothing but the trampoline call.  The second conjunct
records that the final state is Uninitialized in both cases. -/
theorem C4_resize_teardown_before_trampoline (g : HookGlobals) (win : WindowsState)
    (desc : SwapDesc) (bc wd ht fmt fl : Nat) :
    imgui_resize_buffers_impl g win desc bc wd ht fmt fl =
      (match g.imgui_renderer with
       | some r =>
           (⟨none, false⟩, ⟨r.wnd_proc⟩,
            [Ev.setWindowProc desc.outputWindow r.wnd_proc,
             Ev.trampolineResize bc wd ht fmt fl])
       | none =>
           (⟨none, false⟩, win, [Ev.trampolineResize bc wd ht fmt fl])) ∧
    (imgui_resize_buffers_impl g win desc bc wd ht fmt fl).1.imgui_renderer = none := by
  obtain ⟨ir, cg⟩ := g
  cases ir <;> exact ⟨rfl, rfl⟩

----------------------------------------------------------------------------
-- Claim C5
----------------------------------------------------------------------------

/-- When the renderer has no captured command queue, render performs only
its io bookkeeping and records nothing: no allocator reset, no command-list
recording, no submission. -/
theorem render_queue_none (r : ImguiRenderer) (w : RenderWorld)
    (h : r.command_queue = none) :
    r.render w = ({ r with io := renderIoUpdate r.io w }, []) := by
  unfold ImguiRenderer.render
  rw [h]

/-- Claim C5: for every present call that arrives while the effective
renderer (the stored one, or the one built by get_or_init on first call)
has no captured command queue, the frame's event trace is exactly the
present-trampoline invocation with the original sync interval and flags —
no command list is reset, recorded or submitted — and the trampoline's
status code is returned unchanged. -/
theorem C5_present_without_queue_skips_render (g : HookGlobals) (win : WindowsState)
    (desc : SwapDesc) (dev : DeviceParams) (w : RenderWorld) (sync fl : Nat) (ps : Int)
    (h : (match g.imgui_renderer with
          | some r => r
          | none => ImguiRenderer.new desc dev win.wnd_proc).command_queue = none) :
    (imgui_dxgi_swap_chain_present_impl g win desc dev w sync fl ps).2.2.1 =
      [Ev.trampolinePresent sync fl] ∧
    (imgui_dxgi_swap_chain_present_impl g win desc dev w sync fl ps).2.2.2 = ps := by
  obtain ⟨ir, cg⟩ := g
  cases ir with
  | none =>
      refine ⟨?_, rfl⟩
      have hr := render_queue_none (ImguiRenderer.new desc dev win.wnd_proc) w h
      simp [imgui_dxgi_swap_chain_present_impl, hr]
  | some r =>
      refine ⟨?_, rfl⟩
      have hr := render_queue_none r w h
      simp [imgui_dxgi_swap_chain_present_impl, hr]

/-- Witness for claim C5: the very first present call (no renderer yet, so
the freshly built renderer has no captured queue) with sync interval 1,
flags 0 and trampoline status 3. -/
theorem C5_present_without_queue_skips_render_witness :
    (match (⟨none, false⟩ : HookGlobals).imgui_renderer with
     | some r => r
     | none =>
         ImguiRenderer.new sampleDesc sampleDev
           ((⟨7⟩ : WindowsState)).wnd_proc).command_queue = none ∧
    ((imgui_dxgi_swap_chain_present_impl ⟨none, false⟩ ⟨7⟩ sampleDesc sampleDev
        sampleWorld 1 0 3).2.2.1 = [Ev.trampolinePresent 1 0] ∧
      (imgui_dxgi_swap_chain_present_impl ⟨none, false⟩ ⟨7⟩ sampleDesc sampleDev
        sampleWorld 1 0 3).2.2.2 = 3) :=
  ⟨rfl, C5_present_without_queue_skips_render ⟨none, false⟩ ⟨7⟩ sampleDesc sampleDev
    sampleWorld 1 0 3 rfl⟩

----------------------------------------------------------------------------
-- Claim C6
----------------------------------------------------------------------------

/-- Once the command-queue guard is set, the execute-command-lists detour
leaves the globals untouched. -/
theorem ecl_captured_fixed (s : HookGlobals) (q n : Nat)
    (h : s.command_queue_guard = true) :
    (imgui_execute_command_lists_impl s q n).1 = s := by
  simp [imgui_execute_command_lists_impl, h]

/-- After a successful capture (guard set, renderer stored), any sequence of
further execute-command-lists detour invocations leaves the globals — the
stored queue included — unchanged. -/
theorem foldECL_captured (calls : List (Nat × Nat)) (r : ImguiRenderer) :
    foldECL ⟨some r, true⟩ calls = ⟨some r, true⟩ := by
  induction calls with
  | nil => rfl
  | cons c rest ih =>
      show foldECL (imgui_execute_command_lists_impl ⟨some r, true⟩ c.1 c.2).1 rest =
        (⟨some r, true⟩ : HookGlobals)
      rw [ecl_captured_fixed _ _ _ rfl]
      exact ih

/-- Claim C6: the execute-command-lists detour always forwards to the
trampoline with the observed queue and list count; its only state effect is
the one-time capture — with the guard unset and a renderer present the
observed queue is stored and the guard set; with the guard already set, or
no renderer yet, the globals are unchanged — and after a capture any
further invocations (for any queue argument) change nothing, so the stored
queue never changes until teardown. -/
theorem C6_ecl_passthrough_one_time_capture (g : HookGlobals) (q n : Nat)
    (r : ImguiRenderer) (calls : List (Nat × Nat)) :
    (imgui_execute_command_lists_impl g q n).2 = [Ev.trampolineExec q n] ∧
    (imgui_execute_command_lists_impl g q n).1 =
      (if g.command_queue_guard then g
       else
         match g.imgui_renderer with
         | some r0 =>
             { imgui_renderer := some { r0 with command_queue := some q }
               command_queue_guard := true }
         | none => g) ∧
    foldECL ⟨some r, true⟩ calls = ⟨some r, true⟩ :=
  ⟨rfl, rfl, foldECL_captured calls r⟩

----------------------------------------------------------------------------
-- Claim C8
----------------------------------------------------------------------------

/-- The fence values handed out by a run of incr calls form a contiguous
ascending block starting at the counter value, whatever ring indices are
used: the handed value is always the current process-wide counter. -/
theorem runIncr_vals_range' (idxs : List Nat) :
    ∀ (ring : List Dcomp.FrameContext) (fm : Nat),
      ∃ k, (Dcomp.runIncr ring fm idxs).2.2 = List.range' fm k := by
  induction idxs with
  | nil => exact fun ring fm => ⟨0, rfl⟩
  | cons i rest ih =>
      intro ring fm
      cases hg : ring[i]? with
      | none =>
          refine ⟨0, ?_⟩
          simp [Dcomp.runIncr, List.get?_eq_getElem?, hg]
      | some fc =>
          obtain ⟨k, hk⟩ := ih (ring.set i { fc with fence_val := fm }) (fm + 1)
          refine ⟨k + 1, ?_⟩
          simp only [Dcomp.runIncr, List.get?_eq_getElem?, hg, Dcomp.FrameContext.incr]
          rw [List.range'_succ]
          simpa using hk

/-- Claim C8: over any sequence of advance (FrameContext::incr) calls
against the ring — whatever the order of back-buffer indices — the fence
values handed out are precisely consecutive values of the single shared
counter, hence strictly increasing, and no value is ever handed out
twice. -/
theorem C8_advance_values_strictly_increasing (ring : List Dcomp.FrameContext)
    (fm : Nat) (idxs : List Nat) :
    (Dcomp.runIncr ring fm idxs).2.2 =
      List.range' fm (Dcomp.runIncr ring fm idxs).2.2.length ∧
    List.Pairwise (· < ·) (Dcomp.runIncr ring fm idxs).2.2 ∧
    (Dcomp.runIncr ring fm idxs).2.2.Nodup := by
  obtain ⟨k, hk⟩ := runIncr_vals_range' idxs ring fm
  rw [hk, List.length_range']
  exact ⟨rfl, List.pairwise_lt_range' fm k, List.nodup_range' fm k⟩

----------------------------------------------------------------------------
-- Claim C1
----------------------------------------------------------------------------

/-- Claim C1 (evaluation at the failing input): in the hook's per-frame
render path, with the queue captured and back-buffer index 0 current, the
recorded trace resets frame context 0's command allocator while containing
no fence wait whatsoever — the hook FrameContext owns no fence, so no wait
can ever confirm completion before the reset.  (Contrast with
Dcomp.render_wait_precedes_reset below for the example's render path.) -/
theorem C1_hook_render_resets_allocator_without_fence_wait :
    Ev.allocatorReset 0 ∈ (capturedRenderer.render sampleWorld).2 ∧
    (capturedRenderer.render sampleWorld).2.filter Ev.isFenceWait = [] ∧
    (capturedRenderer.render sampleWorld).2 =
      [Ev.newFrame, Ev.renderLoopRender true, Ev.allocatorReset 0,
       Ev.commandListReset rootCommandListId 0, Ev.resourceBarrier,
       Ev.omSetRenderTargets 1000, Ev.setDescriptorHeaps rendererHeapId,
       Ev.renderDrawData 0, Ev.resourceBarrier, Ev.commandListClose,
       Ev.executeOnQueue 5] := by
  decide

/-- In the dcomp example's render path, the fence completed value in force
at the moment of the allocator reset is at least the context's last-signaled
fence value: wait_fence ran to completion first. -/
theorem Dcomp.render_wait_precedes_reset (ring : List Dcomp.FrameContext)
    (fm idx : Nat) (completedOf : Nat → Nat) (q : Nat) (fc : Dcomp.FrameContext)
    (hg : ring.get? idx = some fc) :
    fc.fence_val ≤ (Dcomp.render ring fm idx completedOf q).2.2.1 := by
  rw [List.get?_eq_getElem?] at hg
  simp only [Dcomp.render, List.get?_eq_getElem?, hg]
  unfold Dcomp.FrameContext.wait_fence
  split <;> omega

----------------------------------------------------------------------------
-- Claim C3
----------------------------------------------------------------------------

/-- Claim C3 (evaluation at the failing input): with the
execute-command-lists hook creation failing (status err 7, trampoline slot
left null), hook installation still populates the trampoline table — a null
pointer in the failed slot included — still registers the render loop, and
still returns all three hook records: nothing aborts and the install is
partial, contradicting the claim that any single failure aborts the whole
set. -/
theorem C3_hook_failure_still_installs :
    failedEclWorld.ecl_hook.status = MhStatus.err 7 ∧
    hook_imgui failedEclWorld 0xA 0xB 0xC =
      { trampoline_table := some (111, 0, 333)
        render_loop_set := true
        hooks := [(0xA, present_detour_addr), (0xB, ecl_detour_addr),
                  (0xC, resize_detour_addr)] } := by
  decide

----------------------------------------------------------------------------
-- Claim C7
----------------------------------------------------------------------------

/-- Claim C7 (evaluation at the failing input): for the 2-buffer sample
swap chain the hook ring does hold exactly 2 contexts with RTV handles at
the heap start plus the index times the increment (1000, 1032), but the
contexts are bare triples of back buffer, handle and allocator — the hook
FrameContext type carries no fence, so no context owns a distinct fence
object as the claim requires. -/
theorem C7_hook_ring_contexts_without_fences :
    sampleDesc.bufferCount = 2 ∧
    (ImguiRenderer.new sampleDesc sampleDev 7).frame_contexts =
      [{ back_buffer := 0, desc_handle := 1000, command_allocator := 0 },
       { back_buffer := 1, desc_handle := 1032, command_allocator := 1 }] := by
  decide

/-- The dcomp example's ring, by contrast, has exactly bufferCount contexts. -/
theorem Dcomp.buildFrameContexts_length (n s inc : Nat) :
    (Dcomp.buildFrameContexts n s inc).length = n := by
  simp [Dcomp.buildFrameContexts]

/-- In the dcomp example's ring, context i holds the RTV handle at the heap
start plus i times the increment, and any two contexts at different indices
own distinct fence objects (each CreateFence call returns a fresh fence). -/
theorem Dcomp.buildFrameContexts_handles_and_fences (n s inc i j : Nat)
    (hi : i < n) (hj : j < n) (hij : i ≠ j) :
    ((Dcomp.buildFrameContexts n s inc).get? i).map Dcomp.FrameContext.desc_handle =
      some (s + i * inc) ∧
    ((Dcomp.buildFrameContexts n s inc).get? i).map Dcomp.FrameContext.fence ≠
      ((Dcomp.buildFrameContexts n s inc).get? j).map Dcomp.FrameContext.fence := by
  constructor
  · simp [Dcomp.buildFrameContexts, List.get?_eq_getElem?, List.getElem?_map,
      List.getElem?_range, hi]
  · simp [Dcomp.buildFrameContexts, List.get?_eq_getElem?, List.getElem?_map,
      List.getElem?_range, hi, hj]
    omega
